import Mathlib

/-!
Verification of the geometry trait model, columnar (Arrow-style) backend and
geodesic measurement layer of the `geo` repository.

Shallow embedding conventions:
* The generic numeric element type (`CoordNum`, `f64` in the concrete code) is
  instantiated at `ℚ`, a computable linear ordered field; no floating-point
  rounding is modelled, only the exact arithmetic structure of the code.
* The external geodesic math library (`geographiclib_rs`) is out of scope per
  the spec; it is modelled as an abstract `GeodesicLib` record supplying, for a
  ring (point list), its accumulator perimeter and its accumulator area given a
  declared winding and the sign flag.  In `geographiclib` the accumulated
  perimeter is the sum of geodesic segment lengths and does not depend on the
  winding or on the sign flag passed to `compute`; the model reflects that by
  making `length` a function of the point list only.
* Rust `panic!` outcomes (slice-index out of bounds, `usize` underflow in debug
  builds, `Option::unwrap` on `None`, out-of-bounds columnar value access) are
  made explicit with `Except Panic`.
-/

namespace Geo

/-- `geo_types::Coord`: a pair of numeric coordinates. -/
structure Coord where
  x : ℚ
  y : ℚ
deriving DecidableEq, Repr

/-- `geo_types::Point`: a newtype over `Coord` (`pub struct Point<T>(pub Coord<T>)`). -/
structure Point where
  c : Coord
deriving DecidableEq, Repr

/-- `Point::new(x, y)`. -/
def Point.new (x y : ℚ) : Point := ⟨⟨x, y⟩⟩

/-- `PointTrait::x` for `Point` (src/geo-types/src/geometry/traits/point.rs): `self.0.x`. -/
def Point.x (p : Point) : ℚ := p.c.x

/-- `PointTrait::y` for `Point`: `self.0.y`. -/
def Point.y (p : Point) : ℚ := p.c.y

/-- `geo_types::Line`: a line segment of two coordinates. -/
structure Line where
  start : Coord
  fin : Coord
deriving DecidableEq, Repr

/-- `geo_types::LineString`: a newtype over a coordinate vector
(`pub struct LineString<T>(pub Vec<Coord<T>>)`). -/
structure LineString where
  coords : List Coord
deriving DecidableEq, Repr

/-- `geo_types::Polygon`: one exterior ring plus interior rings. -/
structure Polygon where
  exterior : LineString
  interiors : List LineString
deriving DecidableEq, Repr

/-- `geo_types::MultiPoint`. -/
structure MultiPoint where
  points : List Point
deriving DecidableEq, Repr

/-- `geo_types::MultiLineString`. -/
structure MultiLineString where
  lineStrings : List LineString
deriving DecidableEq, Repr

/-- `geo_types::MultiPolygon`. -/
structure MultiPolygon where
  polygons : List Polygon
deriving DecidableEq, Repr

/-- `geo_types::Rect`: an axis-aligned rectangle given by two corners. -/
structure Rect where
  min : Coord
  max : Coord
deriving DecidableEq, Repr

/-- `geo_types::Triangle`: three corner coordinates. -/
structure Triangle where
  v0 : Coord
  v1 : Coord
  v2 : Coord
deriving DecidableEq, Repr

/-- `geo_types::Geometry`: the closed sum type over all geometry kinds
(`GeometryCollection(Vec<Geometry>)` is represented by the wrapped vector). -/
inductive Geometry where
  | point : Point → Geometry
  | line : Line → Geometry
  | lineString : LineString → Geometry
  | polygon : Polygon → Geometry
  | multiPoint : MultiPoint → Geometry
  | multiLineString : MultiLineString → Geometry
  | multiPolygon : MultiPolygon → Geometry
  | geometryCollection : List Geometry → Geometry
  | rect : Rect → Geometry
  | triangle : Triangle → Geometry
deriving Repr

/-- `geo_types::GeometryCollection`, identified with its wrapped vector. -/
abbrev GeometryCollection := List Geometry

/-! ### Native trait implementations (src/geo-types/src/traits and
src/geo-types/src/geometry/traits) -/

/-- `LineStringTrait::num_points` for `LineString`
(src/geo-types/src/traits/line_string.rs:54-56): `self.0.len()`. -/
def LineString.num_points (ls : LineString) : Nat := ls.coords.length

/-- `LineStringTrait::point` for `LineString`
(src/geo-types/src/traits/line_string.rs:58-60): `self.0.get(i).cloned()`. -/
def LineString.point (ls : LineString) (i : Nat) : Option Coord := ls.coords.get? i

/-- A Rust panic outcome. -/
inductive Panic where
  | panic : Panic
deriving DecidableEq, Repr

/-- `LineStringTrait::point` for `LineString` from the second trait revision
(src/geo-types/src/geometry/traits/line_string.rs:32-35):
`let p: Point = (self[i].x, self[i].y).into(); Some(p)` — the slice index
`self[i]` panics when `i` is out of bounds, and otherwise the method always
returns `Some`. -/
def LineString.point_by_index (ls : LineString) (i : Nat) : Except Panic (Option Point) :=
  match ls.coords.get? i with
  | some c => .ok (some (Point.new c.x c.y))
  | none => .error .panic

/-- `PolygonTrait::exterior` for `Polygon`
(src/geo-types/src/traits/polygon.rs:28-30): `Polygon::exterior(self).clone()`,
total, returning the stored exterior ring. -/
def Polygon.exterior_ring (p : Polygon) : LineString := p.exterior

/-- `PolygonTrait::num_interiors` for `Polygon`
(src/geo-types/src/traits/polygon.rs:36-38): `Polygon::interiors(self).len()`. -/
def Polygon.num_interiors (p : Polygon) : Nat := p.interiors.length

/-- `PolygonTrait::interior` for `Polygon`
(src/geo-types/src/traits/polygon.rs:40-42): `Polygon::interiors(self).get(i).cloned()`. -/
def Polygon.interior (p : Polygon) (i : Nat) : Option LineString := p.interiors.get? i

/-! ### Geodesic measurement layer (src/geo/src/algorithm/geodesic_area.rs) -/

/-- `geographiclib_rs::Winding`. -/
inductive Winding where
  | clockwise : Winding
  | counterClockwise : Winding
deriving DecidableEq, Repr

/-- Abstract model of the external geodesic math library
(`geographiclib_rs::PolygonArea` over `Geodesic::wgs84()`): feeding a ring's
points into the accumulator and calling `compute(sign)` yields a perimeter and
an area.  The perimeter is the sum of geodesic segment lengths of the ring and
thus depends only on the points; the area additionally depends on the declared
winding and on the `sign` flag. -/
structure GeodesicLib where
  length : List Coord → ℚ
  area : List Coord → Winding → Bool → ℚ

/-- `geodesic_area` (src/geo/src/algorithm/geodesic_area.rs:189-231): the
polygon perimeter/area combination logic.  The exterior ring is accumulated
with the exterior winding; each interior ring's perimeter and absolute area are
folded up; the interior area total's sign is flipped to match a negative
exterior area; the result is `(outer_perimeter + interior_perimeter,
outer_area - inner_area)`. -/
def geodesic_area (lib : GeodesicLib) (poly : Polygon) (sign reverse exterior_only : Bool) :
    ℚ × ℚ :=
  let w : Winding × Winding :=
    if reverse then (Winding.clockwise, Winding.counterClockwise)
    else (Winding.counterClockwise, Winding.clockwise)
  let outer_perimeter : ℚ := lib.length poly.exterior.coords
  let outer_area : ℚ := lib.area poly.exterior.coords w.1 sign
  let inner : ℚ × ℚ :=
    if exterior_only then (0, 0)
    else
      poly.interiors.foldl
        (fun acc ring =>
          (acc.1 + lib.length ring.coords, acc.2 + |lib.area ring.coords w.2 sign|))
        (0, 0)
  let inner_area : ℚ := if outer_area < 0 ∧ 0 < inner.2 then -inner.2 else inner.2
  (outer_perimeter + inner.1, outer_area - inner_area)

/-- `GeodesicArea::geodesic_perimeter` for `Polygon` (geodesic_area.rs:165-168). -/
def Polygon.geodesic_perimeter (lib : GeodesicLib) (p : Polygon) : ℚ :=
  (geodesic_area lib p true false false).1

/-- `GeodesicArea::geodesic_area_signed` for `Polygon` (geodesic_area.rs:170-173). -/
def Polygon.geodesic_area_signed (lib : GeodesicLib) (p : Polygon) : ℚ :=
  (geodesic_area lib p true false false).2

/-- `GeodesicArea::geodesic_area_unsigned` for `Polygon` (geodesic_area.rs:175-178). -/
def Polygon.geodesic_area_unsigned (lib : GeodesicLib) (p : Polygon) : ℚ :=
  (geodesic_area lib p false false false).2

/-- `GeodesicArea::geodesic_perimeter_area_signed` for `Polygon` (geodesic_area.rs:180-182). -/
def Polygon.geodesic_perimeter_area_signed (lib : GeodesicLib) (p : Polygon) : ℚ × ℚ :=
  geodesic_area lib p true false false

/-- `GeodesicArea::geodesic_perimeter_area_unsigned` for `Polygon` (geodesic_area.rs:184-186). -/
def Polygon.geodesic_perimeter_area_unsigned (lib : GeodesicLib) (p : Polygon) : ℚ × ℚ :=
  geodesic_area lib p false false false

/-! `zero_impl!` (geodesic_area.rs:235-260), invoked for `Point`, `Line`,
`LineString`, `MultiPoint`, `MultiLineString` (geodesic_area.rs:333-337):
every method body is the constant `0.0` (resp. `(0.0, 0.0)`). -/

/-- `zero_impl!(Point)`: `geodesic_perimeter`. -/
def Point.geodesic_perimeter (_ : Point) : ℚ := 0

/-- `zero_impl!(Point)`: `geodesic_area_signed`. -/
def Point.geodesic_area_signed (_ : Point) : ℚ := 0

/-- `zero_impl!(Point)`: `geodesic_area_unsigned`. -/
def Point.geodesic_area_unsigned (_ : Point) : ℚ := 0

/-- `zero_impl!(Point)`: `geodesic_perimeter_area_signed`. -/
def Point.geodesic_perimeter_area_signed (_ : Point) : ℚ × ℚ := (0, 0)

/-- `zero_impl!(Point)`: `geodesic_perimeter_area_unsigned`. -/
def Point.geodesic_perimeter_area_unsigned (_ : Point) : ℚ × ℚ := (0, 0)

/-- `zero_impl!(Line)`: `geodesic_perimeter`. -/
def Line.geodesic_perimeter (_ : Line) : ℚ := 0

/-- `zero_impl!(Line)`: `geodesic_area_signed`. -/
def Line.geodesic_area_signed (_ : Line) : ℚ := 0

/-- `zero_impl!(Line)`: `geodesic_area_unsigned`. -/
def Line.geodesic_area_unsigned (_ : Line) : ℚ := 0

/-- `zero_impl!(Line)`: `geodesic_perimeter_area_signed`. -/
def Line.geodesic_perimeter_area_signed (_ : Line) : ℚ × ℚ := (0, 0)

/-- `zero_impl!(Line)`: `geodesic_perimeter_area_unsigned`. -/
def Line.geodesic_perimeter_area_unsigned (_ : Line) : ℚ × ℚ := (0, 0)

/-- `zero_impl!(LineString)`: `geodesic_perimeter`. -/
def LineString.geodesic_perimeter (_ : LineString) : ℚ := 0

/-- `zero_impl!(LineString)`: `geodesic_area_signed`. -/
def LineString.geodesic_area_signed (_ : LineString) : ℚ := 0

/-- `zero_impl!(LineString)`: `geodesic_area_unsigned`. -/
def LineString.geodesic_area_unsigned (_ : LineString) : ℚ := 0

/-- `zero_impl!(LineString)`: `geodesic_perimeter_area_signed`. -/
def LineString.geodesic_perimeter_area_signed (_ : LineString) : ℚ × ℚ := (0, 0)

/-- `zero_impl!(LineString)`: `geodesic_perimeter_area_unsigned`. -/
def LineString.geodesic_perimeter_area_unsigned (_ : LineString) : ℚ × ℚ := (0, 0)

/-- `zero_impl!(MultiPoint)`: `geodesic_perimeter`. -/
def MultiPoint.geodesic_perimeter (_ : MultiPoint) : ℚ := 0

/-- `zero_impl!(MultiPoint)`: `geodesic_area_signed`. -/
def MultiPoint.geodesic_area_signed (_ : MultiPoint) : ℚ := 0

/-- `zero_impl!(MultiPoint)`: `geodesic_area_unsigned`. -/
def MultiPoint.geodesic_area_unsigned (_ : MultiPoint) : ℚ := 0

/-- `zero_impl!(MultiPoint)`: `geodesic_perimeter_area_signed`. -/
def MultiPoint.geodesic_perimeter_area_signed (_ : MultiPoint) : ℚ × ℚ := (0, 0)

/-- `zero_impl!(MultiPoint)`: `geodesic_perimeter_area_unsigned`. -/
def MultiPoint.geodesic_perimeter_area_unsigned (_ : MultiPoint) : ℚ × ℚ := (0, 0)

/-- `zero_impl!(MultiLineString)`: `geodesic_perimeter`. -/
def MultiLineString.geodesic_perimeter (_ : MultiLineString) : ℚ := 0

/-- `zero_impl!(MultiLineString)`: `geodesic_area_signed`. -/
def MultiLineString.geodesic_area_signed (_ : MultiLineString) : ℚ := 0

/-- `zero_impl!(MultiLineString)`: `geodesic_area_unsigned`. -/
def MultiLineString.geodesic_area_unsigned (_ : MultiLineString) : ℚ := 0

/-- `zero_impl!(MultiLineString)`: `geodesic_perimeter_area_signed`. -/
def MultiLineString.geodesic_perimeter_area_signed (_ : MultiLineString) : ℚ × ℚ := (0, 0)

/-- `zero_impl!(MultiLineString)`: `geodesic_perimeter_area_unsigned`. -/
def MultiLineString.geodesic_perimeter_area_unsigned (_ : MultiLineString) : ℚ × ℚ := (0, 0)

/-- Modelled from the spec: `Rect::to_polygon` lives in the external
`geo-types` crate and is not under src/ (only its caller, the
`to_polygon_impl!` macro, is).  Following the data model (§3: a polygon is
exactly one exterior ring plus holes) it converts the rectangle to a polygon
whose exterior ring is the rectangle's boundary, counter-clockwise, closed,
with no interior rings. -/
def Rect.to_polygon (r : Rect) : Polygon :=
  { exterior := ⟨[⟨r.min.x, r.min.y⟩, ⟨r.max.x, r.min.y⟩, ⟨r.max.x, r.max.y⟩,
                  ⟨r.min.x, r.max.y⟩, ⟨r.min.x, r.min.y⟩]⟩
    interiors := [] }

/-- Modelled from the spec: `Triangle::to_polygon` lives in the external
`geo-types` crate and is not under src/.  It converts the triangle to a polygon
whose exterior ring is the closed ring through its three corners, with no
interior rings. -/
def Triangle.to_polygon (t : Triangle) : Polygon :=
  { exterior := ⟨[t.v0, t.v1, t.v2, t.v0]⟩
    interiors := [] }

/-! `to_polygon_impl!` (geodesic_area.rs:265-290), invoked for `Rect` and
`Triangle` (geodesic_area.rs:338-339): every method delegates to the same
method on `self.to_polygon()`. -/

/-- `to_polygon_impl!(Rect)`: `geodesic_perimeter`. -/
def Rect.geodesic_perimeter (lib : GeodesicLib) (r : Rect) : ℚ :=
  Polygon.geodesic_perimeter lib r.to_polygon

/-- `to_polygon_impl!(Rect)`: `geodesic_area_signed`. -/
def Rect.geodesic_area_signed (lib : GeodesicLib) (r : Rect) : ℚ :=
  Polygon.geodesic_area_signed lib r.to_polygon

/-- `to_polygon_impl!(Rect)`: `geodesic_area_unsigned`. -/
def Rect.geodesic_area_unsigned (lib : GeodesicLib) (r : Rect) : ℚ :=
  Polygon.geodesic_area_unsigned lib r.to_polygon

/-- `to_polygon_impl!(Rect)`: `geodesic_perimeter_area_signed`. -/
def Rect.geodesic_perimeter_area_signed (lib : GeodesicLib) (r : Rect) : ℚ × ℚ :=
  Polygon.geodesic_perimeter_area_signed lib r.to_polygon

/-- `to_polygon_impl!(Rect)`: `geodesic_perimeter_area_unsigned`. -/
def Rect.geodesic_perimeter_area_unsigned (lib : GeodesicLib) (r : Rect) : ℚ × ℚ :=
  Polygon.geodesic_perimeter_area_unsigned lib r.to_polygon

/-- `to_polygon_impl!(Triangle)`: `geodesic_perimeter`. -/
def Triangle.geodesic_perimeter (lib : GeodesicLib) (t : Triangle) : ℚ :=
  Polygon.geodesic_perimeter lib t.to_polygon

/-- `to_polygon_impl!(Triangle)`: `geodesic_area_signed`. -/
def Triangle.geodesic_area_signed (lib : GeodesicLib) (t : Triangle) : ℚ :=
  Polygon.geodesic_area_signed lib t.to_polygon

/-- `to_polygon_impl!(Triangle)`: `geodesic_area_unsigned`. -/
def Triangle.geodesic_area_unsigned (lib : GeodesicLib) (t : Triangle) : ℚ :=
  Polygon.geodesic_area_unsigned lib t.to_polygon

/-- `to_polygon_impl!(Triangle)`: `geodesic_perimeter_area_signed`. -/
def Triangle.geodesic_perimeter_area_signed (lib : GeodesicLib) (t : Triangle) : ℚ × ℚ :=
  Polygon.geodesic_perimeter_area_signed lib t.to_polygon

/-- `to_polygon_impl!(Triangle)`: `geodesic_perimeter_area_unsigned`. -/
def Triangle.geodesic_perimeter_area_unsigned (lib : GeodesicLib) (t : Triangle) : ℚ × ℚ :=
  Polygon.geodesic_perimeter_area_unsigned lib t.to_polygon

/-- `sum_impl!(MultiPolygon)` (geodesic_area.rs:295-331, 341):
`self.iter().fold(0.0, |total, next| total + next.geodesic_perimeter())`. -/
def MultiPolygon.geodesic_perimeter (lib : GeodesicLib) (mp : MultiPolygon) : ℚ :=
  mp.polygons.foldl (fun total next => total + Polygon.geodesic_perimeter lib next) 0

/-- `sum_impl!(MultiPolygon)`: `geodesic_area_signed`. -/
def MultiPolygon.geodesic_area_signed (lib : GeodesicLib) (mp : MultiPolygon) : ℚ :=
  mp.polygons.foldl (fun total next => total + Polygon.geodesic_area_signed lib next) 0

/-- `sum_impl!(MultiPolygon)`: `geodesic_area_unsigned`. -/
def MultiPolygon.geodesic_area_unsigned (lib : GeodesicLib) (mp : MultiPolygon) : ℚ :=
  mp.polygons.foldl (fun total next => total + Polygon.geodesic_area_unsigned lib next) 0

/-- `sum_impl!(MultiPolygon)`: `geodesic_perimeter_area_signed`. -/
def MultiPolygon.geodesic_perimeter_area_signed (lib : GeodesicLib) (mp : MultiPolygon) :
    ℚ × ℚ :=
  mp.polygons.foldl
    (fun acc next =>
      let pa := Polygon.geodesic_perimeter_area_signed lib next
      (acc.1 + pa.1, acc.2 + pa.2))
    (0, 0)

/-- `sum_impl!(MultiPolygon)`: `geodesic_perimeter_area_unsigned`. -/
def MultiPolygon.geodesic_perimeter_area_unsigned (lib : GeodesicLib) (mp : MultiPolygon) :
    ℚ × ℚ :=
  mp.polygons.foldl
    (fun acc next =>
      let pa := Polygon.geodesic_perimeter_area_unsigned lib next
      (acc.1 + pa.1, acc.2 + pa.2))
    (0, 0)

mutual

/-- `GeodesicArea::geodesic_perimeter` for `Geometry` (geodesic_area.rs:343-351):
`geometry_delegate_impl!` dispatches exhaustively on the variant, calling the
per-kind implementation; `sum_impl!(GeometryCollection)` folds the member
geometries' perimeters starting from `0.0`. -/
def Geometry.geodesic_perimeter (lib : GeodesicLib) : Geometry → ℚ
  | .point p => p.geodesic_perimeter
  | .line l => l.geodesic_perimeter
  | .lineString ls => ls.geodesic_perimeter
  | .polygon p => Polygon.geodesic_perimeter lib p
  | .multiPoint mp => mp.geodesic_perimeter
  | .multiLineString mls => mls.geodesic_perimeter
  | .multiPolygon mp => MultiPolygon.geodesic_perimeter lib mp
  | .geometryCollection gs => geomListPerimeter lib 0 gs
  | .rect r => Rect.geodesic_perimeter lib r
  | .triangle t => Triangle.geodesic_perimeter lib t

/-- The fold of `sum_impl!(GeometryCollection)`'s `geodesic_perimeter`
(geodesic_area.rs:298-302) with its accumulator made explicit. -/
def geomListPerimeter (lib : GeodesicLib) (total : ℚ) : List Geometry → ℚ
  | [] => total
  | next :: rest => geomListPerimeter lib (total + Geometry.geodesic_perimeter lib next) rest

end

mutual

/-- `GeodesicArea::geodesic_area_signed` for `Geometry` (geodesic_area.rs:343-351). -/
def Geometry.geodesic_area_signed (lib : GeodesicLib) : Geometry → ℚ
  | .point p => p.geodesic_area_signed
  | .line l => l.geodesic_area_signed
  | .lineString ls => ls.geodesic_area_signed
  | .polygon p => Polygon.geodesic_area_signed lib p
  | .multiPoint mp => mp.geodesic_area_signed
  | .multiLineString mls => mls.geodesic_area_signed
  | .multiPolygon mp => MultiPolygon.geodesic_area_signed lib mp
  | .geometryCollection gs => geomListAreaSigned lib 0 gs
  | .rect r => Rect.geodesic_area_signed lib r
  | .triangle t => Triangle.geodesic_area_signed lib t

/-- The fold of `sum_impl!(GeometryCollection)`'s `geodesic_area_signed`
(geodesic_area.rs:304-308) with its accumulator made explicit. -/
def geomListAreaSigned (lib : GeodesicLib) (total : ℚ) : List Geometry → ℚ
  | [] => total
  | next :: rest => geomListAreaSigned lib (total + Geometry.geodesic_area_signed lib next) rest

end

mutual

/-- `GeodesicArea::geodesic_area_unsigned` for `Geometry` (geodesic_area.rs:343-351). -/
def Geometry.geodesic_area_unsigned (lib : GeodesicLib) : Geometry → ℚ
  | .point p => p.geodesic_area_unsigned
  | .line l => l.geodesic_area_unsigned
  | .lineString ls => ls.geodesic_area_unsigned
  | .polygon p => Polygon.geodesic_area_unsigned lib p
  | .multiPoint mp => mp.geodesic_area_unsigned
  | .multiLineString mls => mls.geodesic_area_unsigned
  | .multiPolygon mp => MultiPolygon.geodesic_area_unsigned lib mp
  | .geometryCollection gs => geomListAreaUnsigned lib 0 gs
  | .rect r => Rect.geodesic_area_unsigned lib r
  | .triangle t => Triangle.geodesic_area_unsigned lib t

/-- The fold of `sum_impl!(GeometryCollection)`'s `geodesic_area_unsigned`
(geodesic_area.rs:310-314) with its accumulator made explicit. -/
def geomListAreaUnsigned (lib : GeodesicLib) (total : ℚ) : List Geometry → ℚ
  | [] => total
  | next :: rest =>
    geomListAreaUnsigned lib (total + Geometry.geodesic_area_unsigned lib next) rest

end

mutual

/-- `GeodesicArea::geodesic_perimeter_area_signed` for `Geometry`
(geodesic_area.rs:343-351). -/
def Geometry.geodesic_perimeter_area_signed (lib : GeodesicLib) : Geometry → ℚ × ℚ
  | .point p => p.geodesic_perimeter_area_signed
  | .line l => l.geodesic_perimeter_area_signed
  | .lineString ls => ls.geodesic_perimeter_area_signed
  | .polygon p => Polygon.geodesic_perimeter_area_signed lib p
  | .multiPoint mp => mp.geodesic_perimeter_area_signed
  | .multiLineString mls => mls.geodesic_perimeter_area_signed
  | .multiPolygon mp => MultiPolygon.geodesic_perimeter_area_signed lib mp
  | .geometryCollection gs => geomListPerimAreaSigned lib (0, 0) gs
  | .rect r => Rect.geodesic_perimeter_area_signed lib r
  | .triangle t => Triangle.geodesic_perimeter_area_signed lib t

/-- The fold of `sum_impl!(GeometryCollection)`'s `geodesic_perimeter_area_signed`
(geodesic_area.rs:316-321) with its accumulator made explicit. -/
def geomListPerimAreaSigned (lib : GeodesicLib) (total : ℚ × ℚ) : List Geometry → ℚ × ℚ
  | [] => total
  | next :: rest =>
    let pa := Geometry.geodesic_perimeter_area_signed lib next
    geomListPerimAreaSigned lib (total.1 + pa.1, total.2 + pa.2) rest

end

mutual

/-- `GeodesicArea::geodesic_perimeter_area_unsigned` for `Geometry`
(geodesic_area.rs:343-351). -/
def Geometry.geodesic_perimeter_area_unsigned (lib : GeodesicLib) : Geometry → ℚ × ℚ
  | .point p => p.geodesic_perimeter_area_unsigned
  | .line l => l.geodesic_perimeter_area_unsigned
  | .lineString ls => ls.geodesic_perimeter_area_unsigned
  | .polygon p => Polygon.geodesic_perimeter_area_unsigned lib p
  | .multiPoint mp => mp.geodesic_perimeter_area_unsigned
  | .multiLineString mls => mls.geodesic_perimeter_area_unsigned
  | .multiPolygon mp => MultiPolygon.geodesic_perimeter_area_unsigned lib mp
  | .geometryCollection gs => geomListPerimAreaUnsigned lib (0, 0) gs
  | .rect r => Rect.geodesic_perimeter_area_unsigned lib r
  | .triangle t => Triangle.geodesic_perimeter_area_unsigned lib t

/-- The fold of `sum_impl!(GeometryCollection)`'s `geodesic_perimeter_area_unsigned`
(geodesic_area.rs:323-328) with its accumulator made explicit. -/
def geomListPerimAreaUnsigned (lib : GeodesicLib) (total : ℚ × ℚ) : List Geometry → ℚ × ℚ
  | [] => total
  | next :: rest =>
    let pa := Geometry.geodesic_perimeter_area_unsigned lib next
    geomListPerimAreaUnsigned lib (total.1 + pa.1, total.2 + pa.2) rest

end

/-- `sum_impl!(GeometryCollection)` (geodesic_area.rs:295-331, 340):
`geodesic_perimeter`. -/
def GeometryCollection.geodesic_perimeter (lib : GeodesicLib) (gc : GeometryCollection) : ℚ :=
  geomListPerimeter lib 0 gc

/-- `sum_impl!(GeometryCollection)`: `geodesic_area_signed`. -/
def GeometryCollection.geodesic_area_signed (lib : GeodesicLib) (gc : GeometryCollection) : ℚ :=
  geomListAreaSigned lib 0 gc

/-- `sum_impl!(GeometryCollection)`: `geodesic_area_unsigned`. -/
def GeometryCollection.geodesic_area_unsigned (lib : GeodesicLib) (gc : GeometryCollection) :
    ℚ :=
  geomListAreaUnsigned lib 0 gc

/-- `sum_impl!(GeometryCollection)`: `geodesic_perimeter_area_signed`. -/
def GeometryCollection.geodesic_perimeter_area_signed (lib : GeodesicLib)
    (gc : GeometryCollection) : ℚ × ℚ :=
  geomListPerimAreaSigned lib (0, 0) gc

/-- `sum_impl!(GeometryCollection)`: `geodesic_perimeter_area_unsigned`. -/
def GeometryCollection.geodesic_perimeter_area_unsigned (lib : GeodesicLib)
    (gc : GeometryCollection) : ℚ × ℚ :=
  geomListPerimAreaUnsigned lib (0, 0) gc

/-! ### Columnar backend (src/geo-types/src/geometry/arrow)

Model of the `arrow2` primitives the columnar backend consumes (spec §6: a row
count, a per-row null predicate, offset-based sub-range lookup for list
columns, typed value access for leaf numeric columns).  A validity bitmap of
`none` means "no nulls"; `is_valid(i)` is
`validity.map(|b| b.get_bit(i)).unwrap_or(true)` and `is_null` its negation.
`usize` subtraction carries the debug-build overflow check: underflow panics. -/

/-- Rust debug-build `usize` subtraction: `a - b` panics when `b > a`. -/
def usizeSub (a b : Nat) : Except Panic Nat :=
  if b ≤ a then .ok (a - b) else .error .panic

/-- A two-column (x, y) `arrow2::array::StructArray` of `f64` values with an
optional validity bitmap, as consumed by `point_index`. -/
structure StructArray where
  xs : List ℚ
  ys : List ℚ
  validity : Option (List Bool)
deriving DecidableEq, Repr

/-- `StructArray::len`. -/
def StructArray.len (a : StructArray) : Nat := a.xs.length

/-- `Array::is_valid(i)` for a `StructArray`. -/
def StructArray.is_valid (a : StructArray) (i : Nat) : Bool :=
  match a.validity with
  | none => true
  | some bits => bits.getD i true

/-- `Array::is_null(i)` for a `StructArray`: `!is_valid(i)`. -/
def StructArray.is_null (a : StructArray) (i : Nat) : Bool := !(a.is_valid i)

/-- `Array::sliced(offset, length)` for a `StructArray`: a zero-copy window
over the children and validity. -/
def StructArray.sliced (a : StructArray) (offset length : Nat) : StructArray :=
  { xs := (a.xs.drop offset).take length
    ys := (a.ys.drop offset).take length
    validity := a.validity.map (fun bits => (bits.drop offset).take length) }

/-- An `arrow2::array::ListArray<i64>` with child array of type `γ`:
`i64` offsets (length `len + 1`), the child values array, and an optional
validity bitmap. -/
structure ListArray (γ : Type) where
  offsets : List Int
  child : γ
  validity : Option (List Bool)
deriving DecidableEq, Repr

/-- `ListArray::len`: one less than the number of offsets. -/
def ListArray.len {γ : Type} (a : ListArray γ) : Nat := a.offsets.length - 1

/-- `Array::is_valid(i)` for a `ListArray`. -/
def ListArray.is_valid {γ : Type} (a : ListArray γ) (i : Nat) : Bool :=
  match a.validity with
  | none => true
  | some bits => bits.getD i true

/-- `Array::is_null(i)` for a `ListArray`: `!is_valid(i)`. -/
def ListArray.is_null {γ : Type} (a : ListArray γ) (i : Nat) : Bool := !(a.is_valid i)

/-- The offset arithmetic of `ListArray::value(i)`: read `offsets[i]` and
`offsets[i + 1]` and return the start/length of the child sub-range.  `none`
models the panicking outcomes: an offset index out of bounds, or offsets that
are negative or decreasing (malformed input, which must fail loudly). -/
def ListArray.valueRange {γ : Type} (a : ListArray γ) (i : Nat) : Option (Nat × Nat) :=
  match a.offsets.get? i, a.offsets.get? (i + 1) with
  | some o1, some o2 =>
    if 0 ≤ o1 ∧ o1 ≤ o2 then some (o1.toNat, (o2 - o1).toNat) else none
  | _, _ => none

/-- `ListArray::sliced(offset, length)`: a window of `length + 1` offsets
starting at `offset`, over the same child. -/
def ListArray.sliced {γ : Type} (a : ListArray γ) (offset length : Nat) : ListArray γ :=
  { offsets := (a.offsets.drop offset).take (length + 1)
    child := a.child
    validity := a.validity.map (fun bits => (bits.drop offset).take length) }

/-- `point_index` (src/geo-types/src/geometry/arrow/point.rs:4-26): return
`None` if the row is null, otherwise read `x` and `y` from the two child
columns at the row index and build a `Point`.  An out-of-bounds value access
panics. -/
def point_index (a : StructArray) (i : Nat) : Except Panic (Option Point) :=
  if a.is_null i then .ok none
  else
    match a.xs.get? i, a.ys.get? i with
    | some x, some y => .ok (some (Point.new x y))
    | _, _ => .error .panic

/-- `ArrowLineStringScalar` (src/geo-types/src/geometry/arrow/line_string.rs:10-12):
a non-null single LineString, holding its coordinate `StructArray`. -/
structure ArrowLineStringScalar where
  coords : StructArray
deriving DecidableEq, Repr

/-- `LineStringTrait::num_points` for `ArrowLineStringScalar`
(arrow/line_string.rs:18-20): `self.coords.len()`. -/
def ArrowLineStringScalar.num_points (ls : ArrowLineStringScalar) : Nat := ls.coords.len

/-- `LineStringTrait::point` for `ArrowLineStringScalar`
(arrow/line_string.rs:22-24): `point_index(&self.coords, index)`. -/
def ArrowLineStringScalar.point (ls : ArrowLineStringScalar) (i : Nat) :
    Except Panic (Option Point) :=
  point_index ls.coords i

/-- `line_string_index` (arrow/line_string.rs:27-35): return `None` if row `i`
is null; otherwise `array.value(i)` slices the coordinate child array over the
offset range (panicking on malformed offsets or a child overrun) and the
downcast wraps it as an `ArrowLineStringScalar`. -/
def line_string_index (a : ListArray StructArray) (i : Nat) :
    Except Panic (Option ArrowLineStringScalar) :=
  if a.is_null i then .ok none
  else
    match a.valueRange i with
    | some (s, l) =>
      if s + l ≤ a.child.len then .ok (some ⟨a.child.sliced s l⟩) else .error .panic
    | none => .error .panic

/-- `ArrowPolygonScalar` (src/geo-types/src/geometry/arrow/polygon.rs:10-12):
a non-null single Polygon, holding its ring `ListArray` (ring 0 is the
exterior, rings 1.. are the interiors). -/
structure ArrowPolygonScalar where
  rings : ListArray StructArray
deriving DecidableEq, Repr

/-- `PolygonTrait::exterior` for `ArrowPolygonScalar` (arrow/polygon.rs:18-20):
`line_string_index(&self.rings, 0).unwrap()` — unwrapping `None` panics. -/
def ArrowPolygonScalar.exterior (p : ArrowPolygonScalar) : Except Panic ArrowLineStringScalar :=
  match line_string_index p.rings 0 with
  | .ok (some ls) => .ok ls
  | .ok none => .error .panic
  | .error e => .error e

/-- `PolygonTrait::num_interiors` for `ArrowPolygonScalar`
(arrow/polygon.rs:22-24): `self.rings.len() - 1` in `usize` arithmetic. -/
def ArrowPolygonScalar.num_interiors (p : ArrowPolygonScalar) : Except Panic Nat :=
  usizeSub p.rings.len 1

/-- `PolygonTrait::interior` for `ArrowPolygonScalar` (arrow/polygon.rs:26-28):
`line_string_index(&self.rings, i - 1)` — the physical ring index is computed
as `i - 1` in `usize` arithmetic from the zero-based interior index `i`. -/
def ArrowPolygonScalar.interior (p : ArrowPolygonScalar) (i : Nat) :
    Except Panic (Option ArrowLineStringScalar) :=
  match usizeSub i 1 with
  | .ok j => line_string_index p.rings j
  | .error e => .error e

/-- `polygon_index` (arrow/polygon.rs:31-43): return `None` if row `i` is
null; otherwise `array.value(i)` slices the ring-list child array over the
offset range and the downcast wraps it as an `ArrowPolygonScalar`. -/
def polygon_index (a : ListArray (ListArray StructArray)) (i : Nat) :
    Except Panic (Option ArrowPolygonScalar) :=
  if a.is_null i then .ok none
  else
    match a.valueRange i with
    | some (s, l) =>
      if s + l ≤ a.child.len then .ok (some ⟨a.child.sliced s l⟩) else .error .panic
    | none => .error .panic

/-! ### Helper lemmas -/

/-- A left fold adding a projection of each element equals the initial value
plus the sum of the projections. -/
theorem foldl_add_eq_sum {α : Type} (f : α → ℚ) (l : List α) (init : ℚ) :
    l.foldl (fun total x => total + f x) init = init + (l.map f).sum := by
  induction l generalizing init with
  | nil => simp
  | cons a rest ih => simp [ih, add_assoc]

/-- A left fold adding a pair-valued projection componentwise equals the
initial pair plus the componentwise sums. -/
theorem foldl_add_pair_eq_sum {α : Type} (f : α → ℚ × ℚ) (l : List α) (init : ℚ × ℚ) :
    l.foldl (fun acc x => (acc.1 + (f x).1, acc.2 + (f x).2)) init
      = (init.1 + (l.map fun x => (f x).1).sum, init.2 + (l.map fun x => (f x).2).sum) := by
  induction l generalizing init with
  | nil => simp
  | cons a rest ih => simp [ih, add_assoc]

/-- The interior-ring fold of `geodesic_area` accumulates the interior
perimeter total and the total of absolute interior areas. -/
theorem interior_fold_eq (lib : GeodesicLib) (rings : List LineString) (w : Winding)
    (sign : Bool) (init : ℚ × ℚ) :
    rings.foldl
        (fun acc ring => (acc.1 + lib.length ring.coords, acc.2 + |lib.area ring.coords w sign|))
        init
      = (init.1 + (rings.map fun r => lib.length r.coords).sum,
         init.2 + (rings.map fun r => |lib.area r.coords w sign|).sum) := by
  induction rings generalizing init with
  | nil => simp
  | cons r rest ih => simp [ih, add_assoc]

/-- Closed form of `geodesic_area` with `exterior_only = false`: the perimeter
component is the exterior ring length plus the interior ring lengths, and the
area component is the exterior area minus the (sign-matched) total of absolute
interior areas. -/
theorem geodesic_area_unfold (lib : GeodesicLib) (poly : Polygon) (sign reverse : Bool) :
    geodesic_area lib poly sign reverse false
      = (lib.length poly.exterior.coords + (poly.interiors.map fun r => lib.length r.coords).sum,
         lib.area poly.exterior.coords
             (if reverse then Winding.clockwise else Winding.counterClockwise) sign
           - (if lib.area poly.exterior.coords
                    (if reverse then Winding.clockwise else Winding.counterClockwise) sign < 0
                  ∧ 0 < (poly.interiors.map fun r =>
                      |lib.area r.coords
                        (if reverse then Winding.counterClockwise else Winding.clockwise) sign|).sum
              then -(poly.interiors.map fun r =>
                      |lib.area r.coords
                        (if reverse then Winding.counterClockwise else Winding.clockwise) sign|).sum
              else (poly.interiors.map fun r =>
                      |lib.area r.coords
                        (if reverse then Winding.counterClockwise else Winding.clockwise) sign|).sum)) := by
  unfold geodesic_area
  cases reverse <;> simp [interior_fold_eq]

/-- `geomListPerimeter` in terms of a map-sum. -/
theorem geomListPerimeter_eq (lib : GeodesicLib) (total : ℚ) (gs : List Geometry) :
    geomListPerimeter lib total gs = total + (gs.map (Geometry.geodesic_perimeter lib)).sum := by
  induction gs generalizing total with
  | nil => simp [geomListPerimeter]
  | cons g rest ih => simp [geomListPerimeter, ih, add_assoc]

/-- `geomListAreaSigned` in terms of a map-sum. -/
theorem geomListAreaSigned_eq (lib : GeodesicLib) (total : ℚ) (gs : List Geometry) :
    geomListAreaSigned lib total gs
      = total + (gs.map (Geometry.geodesic_area_signed lib)).sum := by
  induction gs generalizing total with
  | nil => simp [geomListAreaSigned]
  | cons g rest ih => simp [geomListAreaSigned, ih, add_assoc]

/-- `geomListAreaUnsigned` in terms of a map-sum. -/
theorem geomListAreaUnsigned_eq (lib : GeodesicLib) (total : ℚ) (gs : List Geometry) :
    geomListAreaUnsigned lib total gs
      = total + (gs.map (Geometry.geodesic_area_unsigned lib)).sum := by
  induction gs generalizing total with
  | nil => simp [geomListAreaUnsigned]
  | cons g rest ih => simp [geomListAreaUnsigned, ih, add_assoc]

/-- `geomListPerimAreaSigned` in terms of componentwise map-sums. -/
theorem geomListPerimAreaSigned_eq (lib : GeodesicLib) (total : ℚ × ℚ) (gs : List Geometry) :
    geomListPerimAreaSigned lib total gs
      = (total.1 + (gs.map fun g => (Geometry.geodesic_perimeter_area_signed lib g).1).sum,
         total.2 + (gs.map fun g => (Geometry.geodesic_perimeter_area_signed lib g).2).sum) := by
  induction gs generalizing total with
  | nil => simp [geomListPerimAreaSigned]
  | cons g rest ih => simp [geomListPerimAreaSigned, ih, add_assoc]

/-- `geomListPerimAreaUnsigned` in terms of componentwise map-sums. -/
theorem geomListPerimAreaUnsigned_eq (lib : GeodesicLib) (total : ℚ × ℚ) (gs : List Geometry) :
    geomListPerimAreaUnsigned lib total gs
      = (total.1 + (gs.map fun g => (Geometry.geodesic_perimeter_area_unsigned lib g).1).sum,
         total.2 + (gs.map fun g => (Geometry.geodesic_perimeter_area_unsigned lib g).2).sum) := by
  induction gs generalizing total with
  | nil => simp [geomListPerimAreaUnsigned]
  | cons g rest ih => simp [geomListPerimAreaUnsigned, ih, add_assoc]

/-! ### Claim theorems -/

/-- C4: for every value of a non-polygonal geometry kind (Point, Line,
LineString, MultiPoint, MultiLineString), all five geodesic measurement
operations — geodesic_perimeter, geodesic_area_signed, geodesic_area_unsigned,
geodesic_perimeter_area_signed, geodesic_perimeter_area_unsigned — return
exactly zero (respectively the pair (0, 0)). -/
theorem non_polygonal_geodesic_measurements_zero (p : Point) (l : Line) (ls : LineString)
    (mp : MultiPoint) (mls : MultiLineString) :
    p.geodesic_perimeter = 0 ∧ p.geodesic_area_signed = 0 ∧ p.geodesic_area_unsigned = 0
      ∧ p.geodesic_perimeter_area_signed = (0, 0) ∧ p.geodesic_perimeter_area_unsigned = (0, 0)
      ∧ l.geodesic_perimeter = 0 ∧ l.geodesic_area_signed = 0 ∧ l.geodesic_area_unsigned = 0
      ∧ l.geodesic_perimeter_area_signed = (0, 0) ∧ l.geodesic_perimeter_area_unsigned = (0, 0)
      ∧ ls.geodesic_perimeter = 0 ∧ ls.geodesic_area_signed = 0 ∧ ls.geodesic_area_unsigned = 0
      ∧ ls.geodesic_perimeter_area_signed = (0, 0)
      ∧ ls.geodesic_perimeter_area_unsigned = (0, 0)
      ∧ mp.geodesic_perimeter = 0 ∧ mp.geodesic_area_signed = 0 ∧ mp.geodesic_area_unsigned = 0
      ∧ mp.geodesic_perimeter_area_signed = (0, 0)
      ∧ mp.geodesic_perimeter_area_unsigned = (0, 0)
      ∧ mls.geodesic_perimeter = 0 ∧ mls.geodesic_area_signed = 0
      ∧ mls.geodesic_area_unsigned = 0 ∧ mls.geodesic_perimeter_area_signed = (0, 0)
      ∧ mls.geodesic_perimeter_area_unsigned = (0, 0) := by
  repeat' constructor

/-- C10: beyond the spec's seven-variant sum type, the geodesic measurements
are implemented for Line, Rect and Triangle: every measurement of a Line is
exactly zero, and every measurement of a Rect or Triangle equals the same
measurement of the polygon produced by its `to_polygon` conversion. -/
theorem extra_kind_geodesic_measurements (lib : GeodesicLib) (l : Line) (r : Rect)
    (t : Triangle) :
    l.geodesic_perimeter = 0 ∧ l.geodesic_area_signed = 0 ∧ l.geodesic_area_unsigned = 0
      ∧ l.geodesic_perimeter_area_signed = (0, 0) ∧ l.geodesic_perimeter_area_unsigned = (0, 0)
      ∧ Rect.geodesic_perimeter lib r = Polygon.geodesic_perimeter lib r.to_polygon
      ∧ Rect.geodesic_area_signed lib r = Polygon.geodesic_area_signed lib r.to_polygon
      ∧ Rect.geodesic_area_unsigned lib r = Polygon.geodesic_area_unsigned lib r.to_polygon
      ∧ Rect.geodesic_perimeter_area_signed lib r
          = Polygon.geodesic_perimeter_area_signed lib r.to_polygon
      ∧ Rect.geodesic_perimeter_area_unsigned lib r
          = Polygon.geodesic_perimeter_area_unsigned lib r.to_polygon
      ∧ Triangle.geodesic_perimeter lib t = Polygon.geodesic_perimeter lib t.to_polygon
      ∧ Triangle.geodesic_area_signed lib t = Polygon.geodesic_area_signed lib t.to_polygon
      ∧ Triangle.geodesic_area_unsigned lib t = Polygon.geodesic_area_unsigned lib t.to_polygon
      ∧ Triangle.geodesic_perimeter_area_signed lib t
          = Polygon.geodesic_perimeter_area_signed lib t.to_polygon
      ∧ Triangle.geodesic_perimeter_area_unsigned lib t
          = Polygon.geodesic_perimeter_area_unsigned lib t.to_polygon := by
  repeat' constructor

/-- C8: for every polygon the perimeter returned by every geodesic operation —
geodesic_perimeter and the first component of both combined operations —
equals the geodesic length of the exterior ring plus the sum of the geodesic
lengths of the interior rings; in particular the signed and the unsigned
combined variants, which differ only in the sign flag passed to the
accumulator, return identical perimeter values. -/
theorem polygon_perimeter_sum_of_ring_lengths (lib : GeodesicLib) (p : Polygon) :
    Polygon.geodesic_perimeter lib p
        = lib.length p.exterior.coords + (p.interiors.map fun r => lib.length r.coords).sum
      ∧ (Polygon.geodesic_perimeter_area_signed lib p).1
        = lib.length p.exterior.coords + (p.interiors.map fun r => lib.length r.coords).sum
      ∧ (Polygon.geodesic_perimeter_area_unsigned lib p).1
        = lib.length p.exterior.coords + (p.interiors.map fun r => lib.length r.coords).sum
      ∧ (Polygon.geodesic_perimeter_area_signed lib p).1
        = (Polygon.geodesic_perimeter_area_unsigned lib p).1 := by
  refine ⟨?_, ?_, ?_, ?_⟩ <;>
    simp [Polygon.geodesic_perimeter, Polygon.geodesic_perimeter_area_signed,
      Polygon.geodesic_perimeter_area_unsigned, geodesic_area_unfold]

/-- C5: for every MultiPolygon and every GeometryCollection, each geodesic
measurement equals the sum over its members of the same measurement applied
recursively to each member, yielding 0 (respectively (0, 0)) for an empty
container; the measurement functions are total structurally recursive
functions over the `Geometry` sum type, so the recursion terminates for
arbitrarily deeply nested collections. -/
theorem container_geodesic_measurements_sum (lib : GeodesicLib) (gc : GeometryCollection)
    (mp : MultiPolygon) :
    GeometryCollection.geodesic_perimeter lib gc
        = (gc.map (Geometry.geodesic_perimeter lib)).sum
      ∧ GeometryCollection.geodesic_area_signed lib gc
        = (gc.map (Geometry.geodesic_area_signed lib)).sum
      ∧ GeometryCollection.geodesic_area_unsigned lib gc
        = (gc.map (Geometry.geodesic_area_unsigned lib)).sum
      ∧ GeometryCollection.geodesic_perimeter_area_signed lib gc
        = ((gc.map fun g => (Geometry.geodesic_perimeter_area_signed lib g).1).sum,
           (gc.map fun g => (Geometry.geodesic_perimeter_area_signed lib g).2).sum)
      ∧ GeometryCollection.geodesic_perimeter_area_unsigned lib gc
        = ((gc.map fun g => (Geometry.geodesic_perimeter_area_unsigned lib g).1).sum,
           (gc.map fun g => (Geometry.geodesic_perimeter_area_unsigned lib g).2).sum)
      ∧ MultiPolygon.geodesic_perimeter lib mp
        = (mp.polygons.map (Polygon.geodesic_perimeter lib)).sum
      ∧ MultiPolygon.geodesic_area_signed lib mp
        = (mp.polygons.map (Polygon.geodesic_area_signed lib)).sum
      ∧ MultiPolygon.geodesic_area_unsigned lib mp
        = (mp.polygons.map (Polygon.geodesic_area_unsigned lib)).sum
      ∧ MultiPolygon.geodesic_perimeter_area_signed lib mp
        = ((mp.polygons.map fun q => (Polygon.geodesic_perimeter_area_signed lib q).1).sum,
           (mp.polygons.map fun q => (Polygon.geodesic_perimeter_area_signed lib q).2).sum)
      ∧ MultiPolygon.geodesic_perimeter_area_unsigned lib mp
        = ((mp.polygons.map fun q => (Polygon.geodesic_perimeter_area_unsigned lib q).1).sum,
           (mp.polygons.map fun q => (Polygon.geodesic_perimeter_area_unsigned lib q).2).sum)
      ∧ GeometryCollection.geodesic_perimeter lib [] = 0
      ∧ GeometryCollection.geodesic_area_signed lib [] = 0
      ∧ GeometryCollection.geodesic_area_unsigned lib [] = 0
      ∧ GeometryCollection.geodesic_perimeter_area_signed lib [] = (0, 0)
      ∧ GeometryCollection.geodesic_perimeter_area_unsigned lib [] = (0, 0)
      ∧ MultiPolygon.geodesic_perimeter lib ⟨[]⟩ = 0
      ∧ MultiPolygon.geodesic_area_signed lib ⟨[]⟩ = 0
      ∧ MultiPolygon.geodesic_area_unsigned lib ⟨[]⟩ = 0
      ∧ MultiPolygon.geodesic_perimeter_area_signed lib ⟨[]⟩ = (0, 0)
      ∧ MultiPolygon.geodesic_perimeter_area_unsigned lib ⟨[]⟩ = (0, 0)
      ∧ Geometry.geodesic_perimeter lib (.geometryCollection gc)
        = GeometryCollection.geodesic_perimeter lib gc
      ∧ Geometry.geodesic_area_signed lib (.geometryCollection gc)
        = GeometryCollection.geodesic_area_signed lib gc
      ∧ Geometry.geodesic_area_unsigned lib (.geometryCollection gc)
        = GeometryCollection.geodesic_area_unsigned lib gc
      ∧ Geometry.geodesic_perimeter_area_signed lib (.geometryCollection gc)
        = GeometryCollection.geodesic_perimeter_area_signed lib gc
      ∧ Geometry.geodesic_perimeter_area_unsigned lib (.geometryCollection gc)
        = GeometryCollection.geodesic_perimeter_area_unsigned lib gc
      ∧ Geometry.geodesic_perimeter lib (.multiPolygon mp)
        = MultiPolygon.geodesic_perimeter lib mp := by
  refine ⟨?_, ?_, ?_, ?_, ?_, ?_, ?_, ?_, ?_, ?_, ?_, ?_, ?_, ?_, ?_, ?_, ?_, ?_, ?_, ?_,
    ?_, ?_, ?_, ?_, ?_, ?_⟩
  · simp [GeometryCollection.geodesic_perimeter, geomListPerimeter_eq]
  · simp [GeometryCollection.geodesic_area_signed, geomListAreaSigned_eq]
  · simp [GeometryCollection.geodesic_area_unsigned, geomListAreaUnsigned_eq]
  · simp [GeometryCollection.geodesic_perimeter_area_signed, geomListPerimAreaSigned_eq]
  · simp [GeometryCollection.geodesic_perimeter_area_unsigned, geomListPerimAreaUnsigned_eq]
  · simpa [MultiPolygon.geodesic_perimeter] using
      foldl_add_eq_sum (Polygon.geodesic_perimeter lib) mp.polygons 0
  · simpa [MultiPolygon.geodesic_area_signed] using
      foldl_add_eq_sum (Polygon.geodesic_area_signed lib) mp.polygons 0
  · simpa [MultiPolygon.geodesic_area_unsigned] using
      foldl_add_eq_sum (Polygon.geodesic_area_unsigned lib) mp.polygons 0
  · simpa [MultiPolygon.geodesic_perimeter_area_signed] using
      foldl_add_pair_eq_sum (Polygon.geodesic_perimeter_area_signed lib) mp.polygons (0, 0)
  · simpa [MultiPolygon.geodesic_perimeter_area_unsigned] using
      foldl_add_pair_eq_sum (Polygon.geodesic_perimeter_area_unsigned lib) mp.polygons (0, 0)
  · rfl
  · rfl
  · rfl
  · rfl
  · rfl
  · rfl
  · rfl
  · rfl
  · rfl
  · rfl
  · simp [Geometry.geodesic_perimeter, GeometryCollection.geodesic_perimeter]
  · simp [Geometry.geodesic_area_signed, GeometryCollection.geodesic_area_signed]
  · simp [Geometry.geodesic_area_unsigned, GeometryCollection.geodesic_area_unsigned]
  · simp [Geometry.geodesic_perimeter_area_signed,
      GeometryCollection.geodesic_perimeter_area_signed]
  · simp [Geometry.geodesic_perimeter_area_unsigned,
      GeometryCollection.geodesic_perimeter_area_unsigned]
  · simp [Geometry.geodesic_perimeter]

/-- C3: in the polygon geodesic area computation each interior ring's area is
accumulated as an absolute value (`innerTot` is the sum of those absolute
values, hence nonnegative); if the exterior area is negative while the
interior total is positive the interior total's sign is flipped to match; the
returned area is the exterior area minus the (sign-matched) interior total, so
holes subtract — the result never exceeds the exterior area when that is
nonnegative and never falls below it when it is negative, and whenever the
hole total does not exceed the exterior's magnitude the result's magnitude is
at most the exterior's. -/
theorem geodesic_area_hole_sign_handling (lib : GeodesicLib) (poly : Polygon)
    (sign reverse : Bool) (outer innerTot : ℚ)
    (houter : outer = lib.area poly.exterior.coords
        (if reverse then Winding.clockwise else Winding.counterClockwise) sign)
    (hinner : innerTot = (poly.interiors.map fun r =>
        |lib.area r.coords
          (if reverse then Winding.counterClockwise else Winding.clockwise) sign|).sum) :
    (geodesic_area lib poly sign reverse false).2
        = outer - (if outer < 0 ∧ 0 < innerTot then -innerTot else innerTot)
      ∧ 0 ≤ innerTot
      ∧ (0 ≤ outer → (geodesic_area lib poly sign reverse false).2 ≤ outer)
      ∧ (outer < 0 → outer ≤ (geodesic_area lib poly sign reverse false).2)
      ∧ (innerTot ≤ |outer| → |(geodesic_area lib poly sign reverse false).2| ≤ |outer|) := by
  have hI : 0 ≤ innerTot := by
    rw [hinner]
    refine List.sum_nonneg ?_
    intro x hx
    simp only [List.mem_map] at hx
    obtain ⟨r, _, rfl⟩ := hx
    exact abs_nonneg _
  have key : (geodesic_area lib poly sign reverse false).2
      = outer - (if outer < 0 ∧ 0 < innerTot then -innerTot else innerTot) := by
    rw [geodesic_area_unfold, ← houter, ← hinner]
  refine ⟨key, hI, ?_, ?_, ?_⟩
  · intro hA
    rw [key, if_neg (fun h => absurd h.1 (not_lt.mpr hA))]
    linarith
  · intro hA
    rw [key]
    by_cases hIc : 0 < innerTot
    · rw [if_pos ⟨hA, hIc⟩]
      linarith
    · rw [if_neg (fun h => absurd h.2 hIc)]
      have h0 : innerTot = 0 := le_antisymm (not_lt.mp hIc) hI
      simp [h0]
  · intro hle
    rw [key]
    rcases le_or_lt 0 outer with hA | hA
    · rw [if_neg (fun h => absurd h.1 (not_lt.mpr hA))]
      rw [abs_of_nonneg hA] at hle
      rw [abs_le, abs_of_nonneg hA]
      constructor <;> linarith
    · by_cases hIc : 0 < innerTot
      · rw [if_pos ⟨hA, hIc⟩]
        rw [abs_of_neg hA] at hle
        rw [abs_le, abs_of_neg hA]
        constructor <;> linarith
      · rw [if_neg (fun h => absurd h.2 hIc)]
        have h0 : innerTot = 0 := le_antisymm (not_lt.mp hIc) hI
        simp [h0]

/-- A concrete geodesic library instance for witnesses: a ring's length is its
point count and its area is minus its point count. -/
def demoLib : GeodesicLib :=
  { length := fun cs => (cs.length : ℚ)
    area := fun cs _ _ => -(cs.length : ℚ) }

/-- A concrete polygon with one hole for witnesses. -/
def demoHolePoly : Polygon :=
  { exterior := ⟨[⟨0, 0⟩, ⟨1, 0⟩, ⟨1, 1⟩]⟩
    interiors := [⟨[⟨0, 0⟩, ⟨1, 0⟩]⟩] }

/-- Witness for C3 at `demoLib`/`demoHolePoly` (exterior area -3, hole total
2): the hypotheses hold and the computed area's magnitude stays within the
exterior area's magnitude. -/
theorem geodesic_area_hole_sign_handling_witness :
    (2 : ℚ) ≤ |(-3 : ℚ)|
      ∧ |(geodesic_area demoLib demoHolePoly true false false).2| ≤ |(-3 : ℚ)| :=
  ⟨by norm_num,
   (geodesic_area_hole_sign_handling demoLib demoHolePoly true false (-3) 2
      (by norm_num [demoLib, demoHolePoly])
      (by norm_num [demoLib, demoHolePoly])).2.2.2.2 (by norm_num)⟩

/-- C9: every columnar decoding accessor — point_index, line_string_index,
polygon_index — checks the row-level null predicate first and returns none for
a null row before performing any offset arithmetic or value access: the result
is `.ok none` for every null row of every array state, including states whose
offsets or values are malformed. -/
theorem accessors_null_check_first (sa : StructArray) (la : ListArray StructArray)
    (pa : ListArray (ListArray StructArray)) (i j k : Nat) :
    (sa.is_null i = true → point_index sa i = .ok none)
      ∧ (la.is_null j = true → line_string_index la j = .ok none)
      ∧ (pa.is_null k = true → polygon_index pa k = .ok none) := by
  refine ⟨fun h => ?_, fun h => ?_, fun h => ?_⟩
  · simp [point_index, h]
  · simp [line_string_index, h]
  · simp [polygon_index, h]

/-- Witness for C9 on arrays whose row 0 is null and whose offsets are
deliberately malformed (decreasing), so any offset arithmetic would fail: all
three accessors still return none. -/
theorem accessors_null_check_first_witness :
    ((⟨[0], [0], some [false]⟩ : StructArray).is_null 0 = true
        ∧ point_index ⟨[0], [0], some [false]⟩ 0 = .ok none)
      ∧ ((⟨[9, 2], ⟨[], [], none⟩, some [false]⟩ : ListArray StructArray).is_null 0 = true
        ∧ line_string_index ⟨[9, 2], ⟨[], [], none⟩, some [false]⟩ 0 = .ok none)
      ∧ ((⟨[9, 2], ⟨[], ⟨[], [], none⟩, none⟩, some [false]⟩ :
            ListArray (ListArray StructArray)).is_null 0 = true
        ∧ polygon_index ⟨[9, 2], ⟨[], ⟨[], [], none⟩, none⟩, some [false]⟩ 0 = .ok none) :=
  ⟨⟨by decide,
    (accessors_null_check_first ⟨[0], [0], some [false]⟩ ⟨[9, 2], ⟨[], [], none⟩, some [false]⟩
        ⟨[9, 2], ⟨[], ⟨[], [], none⟩, none⟩, some [false]⟩ 0 0 0).1 (by decide)⟩,
   ⟨by decide,
    (accessors_null_check_first ⟨[0], [0], some [false]⟩ ⟨[9, 2], ⟨[], [], none⟩, some [false]⟩
        ⟨[9, 2], ⟨[], ⟨[], [], none⟩, none⟩, some [false]⟩ 0 0 0).2.1 (by decide)⟩,
   ⟨by decide,
    (accessors_null_check_first ⟨[0], [0], some [false]⟩ ⟨[9, 2], ⟨[], [], none⟩, some [false]⟩
        ⟨[9, 2], ⟨[], ⟨[], [], none⟩, none⟩, some [false]⟩ 0 0 0).2.2 (by decide)⟩⟩

/-- A concrete coordinate child array for the columnar witnesses: five (x, y)
pairs, no nulls. -/
def demoCoords : StructArray :=
  ⟨[0, 10, 1, 2, 1], [0, 0, 1, 1, 2], none⟩

/-- A concrete ring list for the columnar witnesses: two rings, the exterior
over coordinates [0, 2) and one hole over coordinates [2, 5), no nulls. -/
def demoRings : ListArray StructArray :=
  ⟨[0, 2, 5], demoCoords, none⟩

/-- The columnar polygon over `demoRings`: one exterior ring and one hole. -/
def demoArrowPoly : ArrowPolygonScalar := ⟨demoRings⟩

/-- C6: for every Polygon-like value, num_interiors() equals the number of
interior rings of the logical polygon, independent of whether the underlying
storage also counts the exterior ring: the native backend returns the length
of the interiors list (0 if there are none), and the columnar backend, whose
ring storage counts the exterior as ring 0, returns the stored ring count
minus one — 0, without failing, when the polygon has no interior rings. -/
theorem num_interiors_counts_interior_rings (p : Polygon) (ap : ArrowPolygonScalar) :
    Polygon.num_interiors p = p.interiors.length
      ∧ (p.interiors = [] → Polygon.num_interiors p = 0)
      ∧ (1 ≤ ap.rings.len → ap.num_interiors = .ok (ap.rings.len - 1))
      ∧ (ap.rings.len = 1 → ap.num_interiors = .ok 0) := by
  refine ⟨rfl, fun h => ?_, fun h => ?_, fun h => ?_⟩
  · simp [Polygon.num_interiors, h]
  · simp [ArrowPolygonScalar.num_interiors, usizeSub, h]
  · simp [ArrowPolygonScalar.num_interiors, usizeSub, h]

/-- Witness for C6: the native polygon with no holes reports 0 interiors, and
the columnar polygon with an exterior plus one hole reports 1 interior. -/
theorem num_interiors_counts_interior_rings_witness :
    ((Polygon.mk ⟨[]⟩ []).interiors = [] ∧ Polygon.num_interiors (Polygon.mk ⟨[]⟩ []) = 0)
      ∧ (1 ≤ demoArrowPoly.rings.len
        ∧ demoArrowPoly.num_interiors = .ok (demoArrowPoly.rings.len - 1)) :=
  ⟨⟨rfl, (num_interiors_counts_interior_rings (Polygon.mk ⟨[]⟩ []) demoArrowPoly).2.1 rfl⟩,
   ⟨by decide, (num_interiors_counts_interior_rings (Polygon.mk ⟨[]⟩ []) demoArrowPoly).2.2.1
      (by decide)⟩⟩

/-- C7: exterior() is total.  The native backend's exterior() returns the
stored exterior ring (possibly with zero points) with no absent or failure
outcome by construction; the columnar backend's exterior() decodes physical
ring 0 and succeeds with the decoded ring whenever the polygon value is
well-formed: ring 0 is not null, its offset range exists and is nondecreasing,
and it lies within the coordinate child array. -/
theorem exterior_always_present (p : Polygon) (ap : ArrowPolygonScalar) (s l : Nat) :
    Polygon.exterior_ring p = p.exterior
      ∧ (ap.rings.is_null 0 = false → ap.rings.valueRange 0 = some (s, l) →
          s + l ≤ ap.rings.child.len →
          ap.exterior = .ok ⟨ap.rings.child.sliced s l⟩) := by
  refine ⟨rfl, fun h0 hvr hle => ?_⟩
  have hls : line_string_index ap.rings 0 = .ok (some ⟨ap.rings.child.sliced s l⟩) := by
    simp [line_string_index, h0, hvr, hle]
  simp [ArrowPolygonScalar.exterior, hls]

/-- Witness for C7: the well-formedness hypotheses hold for `demoArrowPoly`
and its exterior() returns the first stored ring (coordinates [0, 2)). -/
theorem exterior_always_present_witness :
    (demoArrowPoly.rings.is_null 0 = false
        ∧ demoArrowPoly.rings.valueRange 0 = some (0, 2)
        ∧ 0 + 2 ≤ demoArrowPoly.rings.child.len)
      ∧ demoArrowPoly.exterior = .ok ⟨demoArrowPoly.rings.child.sliced 0 2⟩ :=
  ⟨⟨by decide, by decide, by decide⟩,
   (exterior_always_present (Polygon.mk ⟨[]⟩ []) demoArrowPoly 0 2).2 (by decide) (by decide)
     (by decide)⟩

/-- C1 (the code contradicts the claim): the columnar interior accessor
computes the physical ring index as i - 1 in usize arithmetic instead of
i + 1.  On a columnar polygon holding two rings — the exterior over
coordinates [0, 2) and one hole over [2, 5) — num_interiors() is 1, yet
interior(0) underflows and panics instead of returning the hole, and
interior(1) returns physical ring 0, which is exactly the exterior ring. -/
theorem arrow_interior_decodes_ring_i_minus_one :
    demoArrowPoly.num_interiors = .ok 1
      ∧ demoArrowPoly.interior 0 = .error .panic
      ∧ demoArrowPoly.interior 1 = .ok (some ⟨⟨[0, 10], [0, 0], none⟩⟩)
      ∧ demoArrowPoly.exterior = .ok ⟨⟨[0, 10], [0, 0], none⟩⟩ :=
  ⟨rfl, rfl, rfl, rfl⟩

/-- C2 (the code contradicts the claim): the LineStringTrait point
implementation of src/geo-types/src/geometry/traits/line_string.rs indexes the
coordinate slice directly, so on the empty line string — where num_points() is
0 — point(0) panics instead of returning none; the revision of the trait in
src/geo-types/src/traits/line_string.rs does return none on the same input. -/
theorem line_string_point_panics_out_of_bounds :
    (⟨[]⟩ : LineString).num_points = 0
      ∧ (⟨[]⟩ : LineString).point_by_index 0 = .error .panic
      ∧ (⟨[]⟩ : LineString).point 0 = none :=
  ⟨rfl, rfl, rfl⟩

end Geo
